import Mathlib

/-!
Verification development for the restinio-crud-example repository.

The C++ sources are shallowly embedded: the task queue and thread pool
(`multithreading.hpp`), the SQLite-backed storage layer (`db_layer.cpp`,
with the SQLite engine abstracted by an insert-failure oracle) and the
request processor with its two-layer error-translation pipeline
(`request_processor.cpp`).
-/

/-! ## Task queue (`message_queue_t` in multithreading.hpp) -/

/-- Result of `message_queue_t::pop`.  The C++ function returns an enum
`{extracted, queue_closed}` and writes the item into an out-parameter; here
`extracted` carries the item.  `would_block` models the state in which the
C++ call waits on the condition variable (queue open and empty). -/
inductive pop_result_t (α : Type) where
  | extracted (x : α)
  | queue_closed
  | would_block
deriving DecidableEq, Repr

/-- State of `message_queue_t`: the pending items in FIFO order
(`m_queue`) and the `m_closed` flag. -/
structure message_queue_t (α : Type) where
  items : List α
  closed : Bool
deriving DecidableEq, Repr

/-- `message_queue_t::push`: under the lock, the item is appended to the
tail only when the queue is not closed; otherwise the call returns with no
effect and reports nothing to the caller (the member function returns
`void`). -/
def message_queue_t.push {α : Type} (q : message_queue_t α) (x : α) :
    message_queue_t α :=
  if q.closed then q else { q with items := q.items ++ [x] }

/-- `message_queue_t::pop`: the loop body first checks `m_closed` and
breaks (returning `queue_closed`) when it is set; only otherwise does it
look at the queue and extract the front item; with the queue open and
empty the call waits on the condition variable (`would_block`). -/
def message_queue_t.pop {α : Type} (q : message_queue_t α) :
    pop_result_t α × message_queue_t α :=
  if q.closed then (.queue_closed, q)
  else
    match q.items with
    | x :: rest => (.extracted x, { q with items := rest })
    | [] => (.would_block, q)

/-- `message_queue_t::close`: sets `m_closed` (and notifies waiters, which
has no effect on the abstract state). -/
def message_queue_t.close {α : Type} (q : message_queue_t α) :
    message_queue_t α :=
  { q with closed := true }

/-- Pushing a whole list of items, one `push` per element, left to right. -/
def message_queue_t.push_all {α : Type} (q : message_queue_t α)
    (xs : List α) : message_queue_t α :=
  xs.foldl message_queue_t.push q

/-- Popping `n` times in a row, collecting the results in order. -/
def message_queue_t.pops {α : Type} (q : message_queue_t α) :
    Nat → List (pop_result_t α) × message_queue_t α
  | 0 => ([], q)
  | n + 1 =>
    let r := q.pop
    let rs := r.2.pops n
    (r.1 :: rs.1, rs.2)

/-! ## Thread pool (`thread_pool_t` in multithreading.hpp) -/

/-- Observable state of a `thread_pool_t` together with the task queue it
shuts down: the identifiers of the started-and-still-running worker
threads (`m_threads`) and whether the shutdowner has closed the queue. -/
structure pool_state_t where
  threads : List Nat
  queue_closed : Bool
deriving DecidableEq, Repr

/-- `thread_pool_t::shutdown_then_join`: when `m_threads` is not empty,
the shutdowner is invoked (closing the queue, which makes every worker
loop exit), every joinable thread is joined, and the vector is cleared;
after the call no started worker is running. -/
def thread_pool_t.shutdown_then_join (st : pool_state_t) : pool_state_t :=
  if st.threads.isEmpty then st
  else { threads := [], queue_closed := true }

/-- The loop of the `thread_pool_t` constructor: start the workers in
order; starting worker `i` fails exactly when `start_fails i`; the first
failure is caught, `shutdown_then_join` runs, and the exception is
re-thrown (the `Except.error` carries the state after cleanup). -/
def thread_pool_t.start_workers (start_fails : Nat → Bool) :
    List Nat → pool_state_t → Except pool_state_t pool_state_t
  | [], st => .ok st
  | i :: rest, st =>
    if start_fails i then .error (thread_pool_t.shutdown_then_join st)
    else
      thread_pool_t.start_workers start_fails rest
        { st with threads := st.threads ++ [i] }

/-- The `thread_pool_t` constructor with `thread_count` workers: starts
from an empty thread vector and an open queue. -/
def thread_pool_t.ctor (start_fails : Nat → Bool) (thread_count : Nat) :
    Except pool_state_t pool_state_t :=
  thread_pool_t.start_workers start_fails (List.range thread_count)
    { threads := [], queue_closed := false }

/-! ## Domain data (`pet_data_types.hpp`) -/

/-- The four text fields of a pet record (`model::pet_data_t`). -/
structure pet_data_t where
  name : String
  mtype : String
  owner : String
  picture : String
deriving DecidableEq, Repr

/-- The data carried by a `SQLite::Exception`: error code, extended error
code and description, as used by `wrap_business_logic_action` when it
formats the failure message. -/
structure sqlite_failure_t where
  error_code : Int
  ext_error_code : Int
  descr : String
deriving DecidableEq, Repr

/-- State of the SQLite `pets` table: the rows (identity paired with the
four text columns, in storage order) and the next value of the
auto-incrementing `id` column (1 on a fresh database). -/
structure db_state_t where
  rows : List (Int × pet_data_t)
  next_id : Int
deriving DecidableEq, Repr

/-- External capabilities the embedded code is parameterised over: the
SQLite engine's possible per-insert failure (a constraint violation or
engine error while executing the insert statement; `none` means the
insert succeeds) and the `json_dto` decoders for a single pet payload and
for a batch envelope (an `Except.error` models a thrown
`json_dto::ex_t`). -/
structure env_t where
  insert_failure : pet_data_t → Option sqlite_failure_t
  decode_pet : String → Except String pet_data_t
  decode_bunch : String → Except String (List pet_data_t)

/-- `db_layer_t::create_new_pet`: binds the four fields to the insert
statement and executes it; on success the store-assigned identity
(`last_insert_rowid`) is returned; a failing execution raises a
`SQLite::Exception`. -/
def db_layer_t.create_new_pet (env : env_t) (s : db_state_t)
    (pet : pet_data_t) : Except sqlite_failure_t (db_state_t × Int) :=
  match env.insert_failure pet with
  | some e => .error e
  | none =>
    .ok ({ rows := s.rows ++ [(s.next_id, pet)], next_id := s.next_id + 1 },
         s.next_id)

/-- The loop body of `db_layer_t::create_bunch_of_pets`: inserts each pet
in order, collecting `last_insert_rowid` after each insert; the first
failing insert raises, abandoning the rest. -/
def db_layer_t.create_bunch_loop (env : env_t) (s : db_state_t) :
    List pet_data_t → Except sqlite_failure_t (db_state_t × List Int)
  | [] => .ok (s, [])
  | pet :: rest =>
    match db_layer_t.create_new_pet env s pet with
    | .error e => .error e
    | .ok (s1, id) =>
      match db_layer_t.create_bunch_loop env s1 rest with
      | .error e => .error e
      | .ok (s2, ids) => .ok (s2, id :: ids)

/-- `db_layer_t::create_bunch_of_pets`: runs the insert loop inside a
`SQLite::Transaction`; when the loop completes, `trx.commit()` publishes
the new rows; when an insert raises, the transaction object is destroyed
uncommitted, which rolls every insert of the batch back (the state
reverts to the input state) and the exception propagates. -/
def db_layer_t.create_bunch_of_pets (env : env_t) (s : db_state_t)
    (pets : List pet_data_t) :
    db_state_t × Except sqlite_failure_t (List Int) :=
  match db_layer_t.create_bunch_loop env s pets with
  | .ok (s1, ids) => (s1, .ok ids)
  | .error e => (s, .error e)

/-- `db_layer_t::get_all_pets`: selects every row in storage order. -/
def db_layer_t.get_all_pets (s : db_state_t) : List (Int × pet_data_t) :=
  s.rows

/-- `db_layer_t::get_pet`: selects the row whose `id` column equals the
argument; `none` models the empty result set (`executeStep` returning
false). -/
def db_layer_t.get_pet (s : db_state_t) (id : Int) :
    Option (Int × pet_data_t) :=
  s.rows.find? (fun r => r.1 == id)

/-- Result of `db_layer_t::update_pet`. -/
inductive update_result_t where
  | updated
  | not_found
deriving DecidableEq, Repr

/-- Result of `db_layer_t::delete_pet`. -/
inductive delete_result_t where
  | deleted
  | not_found
deriving DecidableEq, Repr

/-- `db_layer_t::update_pet`: executes the UPDATE statement and reports
`updated` exactly when one row was changed (the `id` column is the
primary key, so the row count is 0 or 1). -/
def db_layer_t.update_pet (s : db_state_t) (id : Int) (pet : pet_data_t) :
    db_state_t × update_result_t :=
  if s.rows.any (fun r => r.1 == id) then
    ({ s with rows := s.rows.map (fun r => if r.1 == id then (id, pet) else r) },
     .updated)
  else (s, .not_found)

/-- `db_layer_t::delete_pet`: executes the DELETE statement and reports
`deleted` exactly when one row was removed. -/
def db_layer_t.delete_pet (s : db_state_t) (id : Int) :
    db_state_t × delete_result_t :=
  if s.rows.any (fun r => r.1 == id) then
    ({ s with rows := s.rows.filter (fun r => !(r.1 == id)) }, .deleted)
  else (s, .not_found)

/-- The identities `create_bunch_of_pets` assigns to a list of payloads
when every insert succeeds: consecutive values starting at the current
`next_id`, in input order. -/
def assigned_ids (start : Int) : List pet_data_t → List Int
  | [] => []
  | _ :: rest => start :: assigned_ids (start + 1) rest

/-- The rows such a successful batch adds to the table, in input order. -/
def inserted_rows (start : Int) : List pet_data_t → List (Int × pet_data_t)
  | [] => []
  | pet :: rest => (start, pet) :: inserted_rows (start + 1) rest

/-! ## Request processor (`request_processor.cpp`) -/

/-- The error-code constants of namespace `errors`. -/
def errors.unknow_error : Int := -1

def errors.json_dto_error : Int := 1

def errors.sqlite_error : Int := 2

def errors.invalid_pet_id : Int := 3

def errors.invalid_request : Int := 4

/-- `restinio::status_ok()`. -/
def status_ok : Nat := 200

/-- `restinio::status_bad_request()`. -/
def status_bad_request : Nat := 400

/-- `restinio::status_not_found()`. -/
def status_not_found : Nat := 404

/-- `restinio::status_internal_server_error()`. -/
def status_internal_server_error : Nat := 500

/-- The faults that can cross a business-logic action's boundary:
`proc_failure` is a thrown `request_processing_failure_t` (response
status plus `failure_description_t` fields), `json_error` a thrown
`json_dto::ex_t`, `sqlite_error` a thrown `SQLite::Exception`, and
`unclassified` any other exception (reaching the `catch(...)` clause). -/
inductive fault_t where
  | proc_failure (status : Nat) (code : Int) (descr : String)
  | json_error (msg : String)
  | sqlite_error (e : sqlite_failure_t)
  | unclassified
deriving DecidableEq, Repr

/-- The success values the five business-logic actions return (the value
`wrap_request_processing` serialises with `json_dto::to_json` on
success). -/
inductive out_t where
  | pet_identity (id : Int)
  | all_pets (pets : List (Int × pet_data_t))
  | pet_with_id (id : Int) (data : pet_data_t)
  | bunch_ids (ids : List Int)
deriving DecidableEq, Repr

/-- Body of a produced HTTP response: a serialised success value or a
serialised `failure_description_t` (`code` and `description` fields). -/
inductive response_body_t where
  | success (o : out_t)
  | failure (code : Int) (descr : String)
deriving DecidableEq, Repr

/-- One HTTP response written through
`create_response(status)...set_body(body).done()`. -/
structure response_t where
  status : Nat
  body : response_body_t
deriving DecidableEq, Repr

/-- Outcome of parsing the Content-Type header in
`detect_create_new_mode`: the header may be absent, unparsable by
`content_type_value_t::try_parse`, or parsed into a media type/subtype
pair. -/
inductive content_type_t where
  | absent
  | unparsable
  | parsed (mtype : String) (msubtype : String)
deriving DecidableEq, Repr

/-- One part of a multipart/form-data body, as enumerated by
`restinio::file_upload::enumerate_parts_with_files`. -/
structure part_t where
  name : String
  body : String
deriving DecidableEq, Repr

/-- A decoded transport request as the Request Processor sees it: the
Content-Type parse outcome, the raw body, and — for multipart bodies —
the file parts (`none` models a body whose multipart format is invalid,
i.e. `enumerate_parts_with_files` reporting an error). -/
structure request_t where
  content_type : content_type_t
  body : String
  parts : Option (List part_t)
deriving DecidableEq, Repr

/-- `wrap_business_logic_action`: re-raises a `json_dto::ex_t` as a
`request_processing_failure_t` with status 400 and error code 1, and a
`SQLite::Exception` as one with status 500 and error code 2; every other
outcome (success or an already-classified `request_processing_failure_t`)
passes through untouched. -/
def wrap_business_logic_action {α : Type} (a : Except fault_t α) :
    Except fault_t α :=
  match a with
  | .error (.json_error m) =>
    .error (.proc_failure status_bad_request errors.json_dto_error
      ("json-related-error: " ++ m))
  | .error (.sqlite_error e) =>
    .error (.proc_failure status_internal_server_error errors.sqlite_error
      ("sqlite-related-error: error_code=" ++ toString e.error_code ++
        ", ext_error_code=" ++ toString e.ext_error_code ++
        ", desc=" ++ e.descr))
  | x => x

/-- `wrap_request_processing`: on success, serialises the returned value
with status 200; on a `request_processing_failure_t`, serialises the
attached failure description with the attached status; on any other
fault, serialises code -1 with the generic message and status 500.
Exactly one response is produced and no fault escapes.  The database
state is threaded through: only the success branch publishes a state
change (a fault from the storage layer leaves the state as it was). -/
def wrap_request_processing (s : db_state_t)
    (a : Except fault_t (db_state_t × out_t)) : db_state_t × response_t :=
  match a with
  | .ok (s1, o) => (s1, ⟨status_ok, .success o⟩)
  | .error (.proc_failure st c d) => (s, ⟨st, .failure c d⟩)
  | .error _ =>
    (s, ⟨status_internal_server_error,
         .failure errors.unknow_error "unexpected application failure"⟩)

/-- The lambda passed to `enumerate_parts_with_files` in
`batch_create_new_pets`: scans the parts in order, stops at the first one
named "file" recording its body; `uploaded_content` stays empty when no
such part exists. -/
def find_file_part : List part_t → String
  | [] => ""
  | p :: rest => if p.name = "file" then p.body else find_file_part rest

/-- The guard in `batch_create_new_pets`: the enumeration must succeed
(`result` valid) and the recorded content must be non-empty; `none` is
the case that raises the code-4 "no file with new pets found" failure. -/
def uploaded_file_content (req : request_t) : Option String :=
  match req.parts with
  | none => none
  | some parts =>
    let c := find_file_part parts
    if c.isEmpty then none else some c

/-- `detect_create_new_mode`: content negotiation for POST /all/v1/pets.
An absent or unparsable Content-Type or an unsupported media type yields
a status-400, code-4 failure; application/json selects the single-pet
mode and multipart/form-data the batch mode. -/
inductive create_new_mode_t where
  | single
  | batch
deriving DecidableEq, Repr

def detect_create_new_mode (req : request_t) :
    Except (Nat × Int × String) create_new_mode_t :=
  match req.content_type with
  | .absent =>
    .error (status_bad_request, errors.invalid_request,
      "Content-Type HTTP-field is absent")
  | .unparsable =>
    .error (status_bad_request, errors.invalid_request,
      "unable to parse Content-Type HTTP-field")
  | .parsed t st =>
    if t = "application" ∧ st = "json" then .ok .single
    else if t = "multipart" ∧ st = "form-data" then .ok .batch
    else
      .error (status_bad_request, errors.invalid_request,
        "unsupported value of Content-Type")

/-- `request_processor_t::create_new_pet`: decodes the body as a single
pet payload and inserts it, returning the store-assigned identity. -/
def request_processor_t.create_new_pet (env : env_t) (s : db_state_t)
    (req : request_t) : Except fault_t (db_state_t × out_t) :=
  wrap_business_logic_action
    (match env.decode_pet req.body with
     | .error m => .error (.json_error m)
     | .ok pet =>
       match db_layer_t.create_new_pet env s pet with
       | .error e => .error (.sqlite_error e)
       | .ok (s1, id) => .ok (s1, .pet_identity id))

/-- `request_processor_t::batch_create_new_pets`: locates the uploaded
file's content among the multipart parts, raises the code-4 failure when
the enumeration fails or the content is empty, decodes the content as a
batch envelope, and inserts the batch in one transaction. -/
def request_processor_t.batch_create_new_pets (env : env_t)
    (s : db_state_t) (req : request_t) :
    Except fault_t (db_state_t × out_t) :=
  wrap_business_logic_action
    (match uploaded_file_content req with
     | none =>
       .error (.proc_failure status_bad_request errors.invalid_request
         "no file with new pets found")
     | some content =>
       match env.decode_bunch content with
       | .error m => .error (.json_error m)
       | .ok pets =>
         match db_layer_t.create_bunch_of_pets env s pets with
         | (s1, .ok ids) => .ok (s1, .bunch_ids ids)
         | (_, .error e) => .error (.sqlite_error e))

/-- `request_processor_t::get_all_pets`. -/
def request_processor_t.get_all_pets (s : db_state_t) :
    Except fault_t (db_state_t × out_t) :=
  wrap_business_logic_action (.ok (s, .all_pets (db_layer_t.get_all_pets s)))

/-- `request_processor_t::get_specific_pet`: raises the status-404,
code-3 failure when the identity is unknown. -/
def request_processor_t.get_specific_pet (s : db_state_t) (pet_id : Int) :
    Except fault_t (db_state_t × out_t) :=
  wrap_business_logic_action
    (match db_layer_t.get_pet s pet_id with
     | none =>
       .error (.proc_failure status_not_found errors.invalid_pet_id
         ("pet with this ID not found, ID=" ++ toString pet_id))
     | some r => .ok (s, .pet_with_id r.1 r.2))

/-- `request_processor_t::patch_specific_pet`: decodes the body, runs the
update, and raises the status-404, code-3 failure when no row matched. -/
def request_processor_t.patch_specific_pet (env : env_t) (s : db_state_t)
    (req : request_t) (pet_id : Int) :
    Except fault_t (db_state_t × out_t) :=
  wrap_business_logic_action
    (match env.decode_pet req.body with
     | .error m => .error (.json_error m)
     | .ok pet =>
       let r := db_layer_t.update_pet s pet_id pet
       match r.2 with
       | .updated => .ok (r.1, .pet_identity pet_id)
       | .not_found =>
         .error (.proc_failure status_not_found errors.invalid_pet_id
           ("pet with this ID not found, ID=" ++ toString pet_id)))

/-- `request_processor_t::delete_specific_pet`: runs the delete and
raises the status-404, code-3 failure when no row matched. -/
def request_processor_t.delete_specific_pet (s : db_state_t)
    (pet_id : Int) : Except fault_t (db_state_t × out_t) :=
  wrap_business_logic_action
    (let r := db_layer_t.delete_pet s pet_id
     match r.2 with
     | .deleted => .ok (r.1, .pet_identity pet_id)
     | .not_found =>
       .error (.proc_failure status_not_found errors.invalid_pet_id
         ("pet with this ID not found, ID=" ++ toString pet_id)))

/-- Entry point `request_processor_t::on_get_all_pets`: the action runs
inside `wrap_request_processing`, which writes exactly one response. -/
def request_processor_t.on_get_all_pets (s : db_state_t) :
    db_state_t × List response_t :=
  let r := wrap_request_processing s (request_processor_t.get_all_pets s)
  (r.1, [r.2])

/-- Entry point `request_processor_t::on_get_specific_pet`. -/
def request_processor_t.on_get_specific_pet (s : db_state_t)
    (pet_id : Int) : db_state_t × List response_t :=
  let r := wrap_request_processing s
    (request_processor_t.get_specific_pet s pet_id)
  (r.1, [r.2])

/-- Entry point `request_processor_t::on_patch_specific_pet`. -/
def request_processor_t.on_patch_specific_pet (env : env_t)
    (s : db_state_t) (req : request_t) (pet_id : Int) :
    db_state_t × List response_t :=
  let r := wrap_request_processing s
    (request_processor_t.patch_specific_pet env s req pet_id)
  (r.1, [r.2])

/-- Entry point `request_processor_t::on_delete_specific_pet`. -/
def request_processor_t.on_delete_specific_pet (s : db_state_t)
    (pet_id : Int) : db_state_t × List response_t :=
  let r := wrap_request_processing s
    (request_processor_t.delete_specific_pet s pet_id)
  (r.1, [r.2])

/-- Entry point `request_processor_t::on_create_new_pet`: content
negotiation selects the single or batch action (each then runs inside
`wrap_request_processing`); a negotiation failure writes the failure
description directly, with its status — in every branch exactly one
response. -/
def request_processor_t.on_create_new_pet (env : env_t) (s : db_state_t)
    (req : request_t) : db_state_t × List response_t :=
  match detect_create_new_mode req with
  | .ok .single =>
    let r := wrap_request_processing s
      (request_processor_t.create_new_pet env s req)
    (r.1, [r.2])
  | .ok .batch =>
    let r := wrap_request_processing s
      (request_processor_t.batch_create_new_pets env s req)
    (r.1, [r.2])
  | .error e => (s, [⟨e.1, .failure e.2.1 e.2.2⟩])

/-! ## Sample inputs used by the witnesses -/

/-- The pet payload from the repository's README. -/
def sample_pet : pet_data_t := ⟨"Bunny", "dog", "John Smith", "bunny.jpg"⟩

/-- A second payload, rejected by `failing_env`. -/
def sample_pet2 : pet_data_t := ⟨"Rex", "dog", "Jane", "rex.jpg"⟩

/-- A freshly created database: no rows, auto-increment at 1. -/
def fresh_db : db_state_t := ⟨[], 1⟩

/-- An environment in which every insert succeeds. -/
def ok_env : env_t :=
  ⟨fun _ => none, fun _ => .error "bad json", fun _ => .error "bad json"⟩

/-- An environment in which inserting a pet named "Rex" violates a
storage constraint. -/
def failing_env : env_t :=
  ⟨fun p => if p.name = "Rex" then some ⟨19, 19, "constraint failed"⟩
    else none,
   fun _ => .error "bad json", fun _ => .error "bad json"⟩

/-! ## More sample inputs and response shorthands -/

/-- An environment whose decoders succeed: any body decodes to
`sample_pet`, any batch envelope decodes to the empty pet list. -/
def decoding_env : env_t :=
  ⟨fun _ => none, fun _ => .ok sample_pet, fun _ => .ok []⟩

/-- A plain application/json request. -/
def sample_req : request_t := ⟨.parsed "application" "json", "x", none⟩

/-- A multipart request with no parts at all. -/
def empty_multipart_req : request_t :=
  ⟨.parsed "multipart" "form-data", "", some []⟩

/-- A multipart request whose "file" part carries the content "x". -/
def file_multipart_req : request_t :=
  ⟨.parsed "multipart" "form-data", "", some [⟨"file", "x"⟩]⟩

/-- The response produced for a decoding fault. -/
def json_error_response (m : String) : response_t :=
  ⟨status_bad_request, .failure errors.json_dto_error
    ("json-related-error: " ++ m)⟩

/-- The response produced for a storage fault. -/
def sqlite_error_response (e : sqlite_failure_t) : response_t :=
  ⟨status_internal_server_error, .failure errors.sqlite_error
    ("sqlite-related-error: error_code=" ++ toString e.error_code ++
      ", ext_error_code=" ++ toString e.ext_error_code ++
      ", desc=" ++ e.descr)⟩

/-- The response produced for an unknown pet identity. -/
def not_found_response (id : Int) : response_t :=
  ⟨status_not_found, .failure errors.invalid_pet_id
    ("pet with this ID not found, ID=" ++ toString id)⟩

/-- The response produced for a malformed batch-create envelope. -/
def no_file_response : response_t :=
  ⟨status_bad_request, .failure errors.invalid_request
    "no file with new pets found"⟩

/-- The response produced for an unclassified fault. -/
def unclassified_response : response_t :=
  ⟨status_internal_server_error, .failure errors.unknow_error
    "unexpected application failure"⟩

/-! ## Helper lemmas about the embedded definitions -/

theorem message_queue_t.push_all_open {α : Type} (xs : List α)
    (l : List α) :
    message_queue_t.push_all ⟨l, false⟩ xs = ⟨l ++ xs, false⟩ := by
  induction xs generalizing l with
  | nil => simp [message_queue_t.push_all]
  | cons x rest ih =>
    simp only [message_queue_t.push_all, List.foldl_cons] at *
    rw [show message_queue_t.push ⟨l, false⟩ x = ⟨l ++ [x], false⟩ from rfl]
    rw [ih]
    simp

theorem message_queue_t.pops_open_all {α : Type} (l : List α) :
    message_queue_t.pops ⟨l, false⟩ l.length =
      (l.map pop_result_t.extracted, ⟨[], false⟩) := by
  induction l with
  | nil => simp [message_queue_t.pops]
  | cons x rest ih =>
    simp only [List.length_cons, message_queue_t.pops, message_queue_t.pop,
      List.map_cons]
    rw [if_neg (by simp)]
    simp only []
    rw [ih]

theorem message_queue_t.pops_closed {α : Type} (l : List α) (n : Nat) :
    message_queue_t.pops ⟨l, true⟩ n =
      (List.replicate n pop_result_t.queue_closed, ⟨l, true⟩) := by
  induction n with
  | zero => simp [message_queue_t.pops]
  | succ n ih =>
    simp [message_queue_t.pops, message_queue_t.pop, ih, List.replicate_succ]

theorem thread_pool_t.start_workers_ok_prefix (start_fails : Nat → Bool)
    (l rest : List Nat) (st : pool_state_t)
    (h : ∀ i ∈ l, start_fails i = false) :
    thread_pool_t.start_workers start_fails (l ++ rest) st =
      thread_pool_t.start_workers start_fails rest
        { st with threads := st.threads ++ l } := by
  induction l generalizing st with
  | nil => simp
  | cons i l ih =>
    simp only [List.cons_append, thread_pool_t.start_workers]
    rw [if_neg (by simp [h i (by simp)])]
    simp only [List.append_eq]
    rw [ih _ (fun j hj => h j (by simp [hj]))]
    simp

theorem list_range_split (n k : Nat) (h : k < n) :
    ∃ rest, List.range n = List.range k ++ k :: rest := by
  induction n with
  | zero => omega
  | succ m ih =>
    rcases Nat.lt_succ_iff_lt_or_eq.mp h with h' | h'
    · obtain ⟨rest, hrest⟩ := ih h'
      exact ⟨rest ++ [m], by rw [List.range_succ, hrest]; simp⟩
    · exact ⟨[], by rw [List.range_succ, h']⟩

/-! ## Claim theorems: task queue -/

/-- C7: for every sequence of pushes P1..Pn onto an open queue followed
by pops, the pops yield exactly P1..Pn in that order. -/
theorem queue_fifo (α : Type) (xs : List α) :
    (message_queue_t.pops (message_queue_t.push_all ⟨[], false⟩ xs)
        xs.length).1 =
      xs.map pop_result_t.extracted := by
  rw [message_queue_t.push_all_open, List.nil_append,
    message_queue_t.pops_open_all]

/-- C8: pushing a task onto a queue whose closed flag is set leaves the
pending sequence and the closed flag unchanged; `push` returns nothing,
so no error reaches the pusher (the task is silently dropped). -/
theorem push_after_close_noop (α : Type) (xs : List α) (t : α) :
    message_queue_t.push ⟨xs, true⟩ t = ⟨xs, true⟩ := by
  simp [message_queue_t.push]

/-- C1 counterexample: pushing tasks 1 and 2, closing, and then popping
does NOT return task 1 first — the very first pop after close already
reports the Closed outcome, so the items queued before close are lost. -/
theorem pop_after_close_counterexample :
    (message_queue_t.pop (message_queue_t.close
        (message_queue_t.push (message_queue_t.push
          (⟨[], false⟩ : message_queue_t Nat) 1) 2))).1 =
      pop_result_t.queue_closed ∧
    (message_queue_t.pop (message_queue_t.close
        (message_queue_t.push (message_queue_t.push
          (⟨[], false⟩ : message_queue_t Nat) 1) 2))).1 ≠
      pop_result_t.extracted 1 := by
  exact ⟨rfl, by decide⟩

/-- C1 amended: after tasks P1..Pn are pushed and close() is called,
every subsequent pop immediately reports the Closed outcome — the n
unconsumed tasks are never returned (pop checks the closed flag before
looking at the pending items, so items queued before close are dropped,
exactly as the queue's own comment documents). -/
theorem pop_after_close_reports_closed (α : Type) (xs : List α)
    (n : Nat) :
    (message_queue_t.pops (message_queue_t.close
        (message_queue_t.push_all ⟨[], false⟩ xs)) n).1 =
      List.replicate n pop_result_t.queue_closed := by
  rw [message_queue_t.push_all_open, List.nil_append]
  rw [show message_queue_t.close ⟨xs, false⟩ =
    (⟨xs, true⟩ : message_queue_t α) from rfl]
  rw [message_queue_t.pops_closed]

/-! ## Claim theorems: thread pool -/

/-- C5: if starting the worker of index k fails during pool construction
(all workers of smaller index having started), the constructor reports
failure with every already-started worker joined and removed — zero
workers remain running — and, when at least one worker had started, the
shutdown signal (closing the queue) was raised to stop them. -/
theorem thread_pool_all_or_nothing_startup (start_fails : Nat → Bool)
    (n k : Nat) (hk : k < n) (hfail : start_fails k = true)
    (hprev : ∀ i, i < k → start_fails i = false) :
    ∃ st, thread_pool_t.ctor start_fails n = .error st ∧
      st.threads = [] ∧ (0 < k → st.queue_closed = true) := by
  obtain ⟨rest, hrest⟩ := list_range_split n k hk
  unfold thread_pool_t.ctor
  rw [hrest]
  rw [thread_pool_t.start_workers_ok_prefix _ _ _ _
    (fun i hi => hprev i (List.mem_range.mp hi))]
  have hstep : thread_pool_t.start_workers start_fails (k :: rest)
      { threads := [] ++ List.range k, queue_closed := false } =
      .error (thread_pool_t.shutdown_then_join
        { threads := [] ++ List.range k, queue_closed := false }) := by
    simp [thread_pool_t.start_workers, hfail]
  rw [hstep]
  refine ⟨_, rfl, ?_, ?_⟩
  · unfold thread_pool_t.shutdown_then_join
    by_cases h0 : k = 0
    · subst h0; simp
    · simp [h0, List.range_eq_nil]
  · intro hpos
    have h0 : k ≠ 0 := by omega
    simp [thread_pool_t.shutdown_then_join, h0, List.range_eq_nil]

/-- Witness for C5: with three requested workers and worker 1 failing to
start, construction fails with no worker left running and the queue
closed. -/
theorem thread_pool_all_or_nothing_startup_witness :
    ∃ st, thread_pool_t.ctor (fun i => decide (i = 1)) 3 = .error st ∧
      st.threads = [] ∧ (0 < 1 → st.queue_closed = true) :=
  thread_pool_all_or_nothing_startup (fun i => decide (i = 1)) 3 1
    (by decide) (by decide) (by decide)

/-! ## Claim theorems: storage layer -/

theorem assigned_ids_length (start : Int) (pets : List pet_data_t) :
    (assigned_ids start pets).length = pets.length := by
  induction pets generalizing start with
  | nil => rfl
  | cons p rest ih => simp [assigned_ids, ih]

theorem db_layer_t.create_bunch_loop_ok (env : env_t)
    (pets : List pet_data_t) :
    ∀ s : db_state_t, (∀ p ∈ pets, env.insert_failure p = none) →
      db_layer_t.create_bunch_loop env s pets =
        .ok ({ rows := s.rows ++ inserted_rows s.next_id pets,
               next_id := s.next_id + pets.length },
             assigned_ids s.next_id pets) := by
  induction pets with
  | nil =>
    intro s h
    simp [db_layer_t.create_bunch_loop, inserted_rows, assigned_ids]
  | cons p rest ih =>
    intro s h
    have hp : env.insert_failure p = none := h p (by simp)
    simp only [db_layer_t.create_bunch_loop, db_layer_t.create_new_pet, hp]
    rw [ih _ (fun q hq => h q (by simp [hq]))]
    simp only [inserted_rows, assigned_ids, List.length_cons, Except.ok.injEq,
      Prod.mk.injEq, db_state_t.mk.injEq]
    refine ⟨⟨?_, ?_⟩, trivial⟩
    · simp
    · push_cast
      ring

theorem db_layer_t.create_bunch_loop_error (env : env_t)
    (pets : List pet_data_t) :
    ∀ s : db_state_t, (∃ p ∈ pets, env.insert_failure p ≠ none) →
      ∃ e, db_layer_t.create_bunch_loop env s pets = .error e := by
  induction pets with
  | nil =>
    intro s h
    simp at h
  | cons p rest ih =>
    intro s h
    cases hp : env.insert_failure p with
    | some e =>
      exact ⟨e, by
        simp [db_layer_t.create_bunch_loop, db_layer_t.create_new_pet, hp]⟩
    | none =>
      have hrest : ∃ q ∈ rest, env.insert_failure q ≠ none := by
        rcases h with ⟨q, hq, hne⟩
        rcases List.mem_cons.mp hq with rfl | hq'
        · exact absurd hp hne
        · exact ⟨q, hq', hne⟩
      obtain ⟨e, he⟩ := ih
        { rows := s.rows ++ [(s.next_id, p)], next_id := s.next_id + 1 } hrest
      exact ⟨e, by
        simp [db_layer_t.create_bunch_loop, db_layer_t.create_new_pet, hp, he]⟩

/-- C4: createBunch either inserts all N records in one transaction,
returning the N store-assigned identities in input order (consecutive
fresh ids), or — when some insert raises a storage fault — the
transaction is rolled back: the fault propagates, no identity is
returned, and the store is exactly the input store, holding none of the
N records. -/
theorem create_bunch_atomicity (env : env_t) (s : db_state_t)
    (pets : List pet_data_t) :
    ((∀ p ∈ pets, env.insert_failure p = none) →
      db_layer_t.create_bunch_of_pets env s pets =
        ({ rows := s.rows ++ inserted_rows s.next_id pets,
           next_id := s.next_id + pets.length },
         .ok (assigned_ids s.next_id pets)) ∧
      (assigned_ids s.next_id pets).length = pets.length)
    ∧ ((∃ p ∈ pets, env.insert_failure p ≠ none) →
      ∃ e, db_layer_t.create_bunch_of_pets env s pets = (s, .error e)) := by
  constructor
  · intro h
    refine ⟨?_, assigned_ids_length _ _⟩
    unfold db_layer_t.create_bunch_of_pets
    rw [db_layer_t.create_bunch_loop_ok env pets s h]
  · intro h
    obtain ⟨e, he⟩ := db_layer_t.create_bunch_loop_error env pets s h
    exact ⟨e, by unfold db_layer_t.create_bunch_of_pets; rw [he]⟩

/-- Witness for C4: a two-element batch fully succeeds under `ok_env`
with ids 1 and 2, and under `failing_env` (second payload violating a
constraint) the whole batch is rolled back to the fresh database. -/
theorem create_bunch_atomicity_witness :
    (db_layer_t.create_bunch_of_pets ok_env fresh_db
        [sample_pet, sample_pet2] =
      ({ rows := fresh_db.rows ++
           inserted_rows fresh_db.next_id [sample_pet, sample_pet2],
         next_id := fresh_db.next_id +
           ([sample_pet, sample_pet2] : List pet_data_t).length },
       .ok (assigned_ids fresh_db.next_id [sample_pet, sample_pet2])) ∧
     (assigned_ids fresh_db.next_id [sample_pet, sample_pet2]).length =
       ([sample_pet, sample_pet2] : List pet_data_t).length) ∧
    ∃ e, db_layer_t.create_bunch_of_pets failing_env fresh_db
        [sample_pet, sample_pet2] = (fresh_db, .error e) :=
  ⟨(create_bunch_atomicity ok_env fresh_db [sample_pet, sample_pet2]).1
      (fun p _ => rfl),
   (create_bunch_atomicity failing_env fresh_db
      [sample_pet, sample_pet2]).2
      ⟨sample_pet2, by simp, by simp [failing_env, sample_pet2]⟩⟩

/-- C6: for a payload whose insert succeeds, `get_pet` applied to the
identity returned by `create_new_pet` finds a record whose fields equal
the payload and whose identity is the freshly assigned `next_id`, which
(by the freshness hypothesis on the table) matches no pre-existing
row. -/
theorem storage_round_trip (env : env_t) (s : db_state_t)
    (p : pet_data_t) (hok : env.insert_failure p = none)
    (hfresh : ∀ r ∈ s.rows, r.1 ≠ s.next_id) :
    ∃ s1, db_layer_t.create_new_pet env s p = .ok (s1, s.next_id) ∧
      db_layer_t.get_pet s1 s.next_id = some (s.next_id, p) := by
  refine ⟨{ rows := s.rows ++ [(s.next_id, p)], next_id := s.next_id + 1 },
    ?_, ?_⟩
  · simp [db_layer_t.create_new_pet, hok]
  · unfold db_layer_t.get_pet
    simp only []
    rw [List.find?_append]
    have h1 : s.rows.find? (fun r => r.1 == s.next_id) = none := by
      rw [List.find?_eq_none]
      intro x hx
      simpa using hfresh x hx
    rw [h1]
    simp

/-- Witness for C6: creating the README's sample pet in a fresh database
assigns identity 1 and `get_pet 1` returns it with all four fields. -/
theorem storage_round_trip_witness :
    ∃ s1, db_layer_t.create_new_pet ok_env fresh_db sample_pet =
        .ok (s1, fresh_db.next_id) ∧
      db_layer_t.get_pet s1 fresh_db.next_id =
        some (fresh_db.next_id, sample_pet) :=
  storage_round_trip ok_env fresh_db sample_pet rfl (by simp [fresh_db])

/-! ## Claim theorems: request processor -/

theorem detect_multipart (req : request_t)
    (h : req.content_type = .parsed "multipart" "form-data") :
    detect_create_new_mode req = .ok .batch := by
  unfold detect_create_new_mode
  rw [h]
  rfl

theorem find_file_part_skip (pre : List part_t) (p : part_t)
    (post : List part_t) (h : ∀ q ∈ pre, q.name ≠ "file")
    (hp : p.name = "file") :
    find_file_part (pre ++ p :: post) = p.body := by
  induction pre with
  | nil => simp [find_file_part, hp]
  | cons q rest ih =>
    rw [List.cons_append]
    rw [show find_file_part (q :: (rest ++ p :: post)) =
      (if q.name = "file" then q.body
       else find_file_part (rest ++ p :: post)) from rfl]
    rw [if_neg (h q (by simp))]
    exact ih (fun r hr => h r (by simp [hr]))

/-- C2: every Request Processor entry point (get-all, get-one, create,
patch, delete) terminates having produced exactly one response, whatever
the request, decoders and storage engine do: the outer wrapper absorbs
every fault (the model is a total function into a response list), so
nothing escapes into the pool worker's loop. -/
theorem entry_points_produce_exactly_one_response (env : env_t)
    (s : db_state_t) (req : request_t) (pet_id : Int) :
    (request_processor_t.on_get_all_pets s).2.length = 1 ∧
    (request_processor_t.on_get_specific_pet s pet_id).2.length = 1 ∧
    (request_processor_t.on_create_new_pet env s req).2.length = 1 ∧
    (request_processor_t.on_patch_specific_pet env s req pet_id).2.length
      = 1 ∧
    (request_processor_t.on_delete_specific_pet s pet_id).2.length = 1 := by
  refine ⟨rfl, rfl, ?_, rfl, rfl⟩
  unfold request_processor_t.on_create_new_pet
  cases h : detect_create_new_mode req with
  | ok m => cases m <;> rfl
  | error e => rfl

/-- C3: failures are classified exactly as the two wrappers prescribe:
a JSON decoding fault becomes a 400 response with error code 1; a SQLite
fault becomes a 500 response with error code 2; an unknown identity on
get/patch/delete becomes a 404 response with error code 3; a malformed
create-batch envelope (no usable file part) becomes a 400 response with
error code 4; any unclassified fault becomes a 500 response with error
code -1 and the generic message. -/
theorem failure_classification :
    (∀ (s : db_state_t) (m : String),
      wrap_request_processing s
        (wrap_business_logic_action (.error (.json_error m))) =
        (s, json_error_response m)) ∧
    (∀ (s : db_state_t) (e : sqlite_failure_t),
      wrap_request_processing s
        (wrap_business_logic_action (.error (.sqlite_error e))) =
        (s, sqlite_error_response e)) ∧
    (∀ (s : db_state_t) (id : Int), db_layer_t.get_pet s id = none →
      request_processor_t.on_get_specific_pet s id =
        (s, [not_found_response id])) ∧
    (∀ (env : env_t) (s : db_state_t) (req : request_t) (id : Int)
      (pet : pet_data_t), env.decode_pet req.body = .ok pet →
      (db_layer_t.update_pet s id pet).2 = .not_found →
      request_processor_t.on_patch_specific_pet env s req id =
        (s, [not_found_response id])) ∧
    (∀ (s : db_state_t) (id : Int),
      (db_layer_t.delete_pet s id).2 = .not_found →
      request_processor_t.on_delete_specific_pet s id =
        (s, [not_found_response id])) ∧
    (∀ (env : env_t) (s : db_state_t) (req : request_t),
      req.content_type = .parsed "multipart" "form-data" →
      uploaded_file_content req = none →
      request_processor_t.on_create_new_pet env s req =
        (s, [no_file_response])) ∧
    (∀ (s : db_state_t),
      wrap_request_processing s
        (.error .unclassified) = (s, unclassified_response)) := by
  refine ⟨fun s m => rfl, fun s e => rfl, ?_, ?_, ?_, ?_, fun s => rfl⟩
  · intro s id h
    unfold request_processor_t.on_get_specific_pet
      request_processor_t.get_specific_pet
    rw [h]
    rfl
  · intro env s req id pet hdec hupd
    unfold request_processor_t.on_patch_specific_pet
      request_processor_t.patch_specific_pet
    simp only [hdec]
    rcases hu : db_layer_t.update_pet s id pet with ⟨s1, ur⟩
    cases ur
    · rw [hu] at hupd
      simp at hupd
    · rfl
  · intro s id h
    unfold request_processor_t.on_delete_specific_pet
      request_processor_t.delete_specific_pet
    rcases hd : db_layer_t.delete_pet s id with ⟨s1, dr⟩
    cases dr
    · rw [hd] at h
      simp at h
    · rfl
  · intro env s req hct hfile
    unfold request_processor_t.on_create_new_pet
    rw [detect_multipart _ hct]
    unfold request_processor_t.batch_create_new_pets
    rw [hfile]
    rfl

/-- Witness for C3: each classification exercised at a concrete input —
a decoding fault, a storage fault, the unknown identity 42 on get, patch
and delete against the fresh database, a multipart request with no
parts, and an unclassified fault. -/
theorem failure_classification_witness :
    wrap_request_processing fresh_db
      (wrap_business_logic_action (.error (.json_error "boom"))) =
      (fresh_db, json_error_response "boom") ∧
    wrap_request_processing fresh_db
      (wrap_business_logic_action
        (.error (.sqlite_error ⟨1, 2, "disk failure"⟩))) =
      (fresh_db, sqlite_error_response ⟨1, 2, "disk failure"⟩) ∧
    request_processor_t.on_get_specific_pet fresh_db 42 =
      (fresh_db, [not_found_response 42]) ∧
    request_processor_t.on_patch_specific_pet decoding_env fresh_db
      sample_req 42 = (fresh_db, [not_found_response 42]) ∧
    request_processor_t.on_delete_specific_pet fresh_db 42 =
      (fresh_db, [not_found_response 42]) ∧
    request_processor_t.on_create_new_pet ok_env fresh_db
      empty_multipart_req = (fresh_db, [no_file_response]) ∧
    wrap_request_processing fresh_db (.error .unclassified) =
      (fresh_db, unclassified_response) :=
  ⟨failure_classification.1 fresh_db "boom",
   failure_classification.2.1 fresh_db ⟨1, 2, "disk failure"⟩,
   failure_classification.2.2.1 fresh_db 42 rfl,
   failure_classification.2.2.2.1 decoding_env fresh_db sample_req 42
     sample_pet rfl rfl,
   failure_classification.2.2.2.2.1 fresh_db 42 rfl,
   failure_classification.2.2.2.2.2.1 ok_env fresh_db
     empty_multipart_req rfl rfl,
   failure_classification.2.2.2.2.2.2 fresh_db⟩

/-- C9: a multipart batch-create request that does contain a part named
"file" but whose file-part body is empty (zero bytes) is rejected with
status 400 and error code 4 ("no file with new pets found") — the same
classification as a missing part — and the database state is returned
untouched: no storage operation runs. -/
theorem batch_empty_file_part_rejected (env : env_t) (s : db_state_t)
    (body : String) (pre post : List part_t)
    (hpre : ∀ q ∈ pre, q.name ≠ "file") :
    request_processor_t.on_create_new_pet env s
      ⟨.parsed "multipart" "form-data", body,
        some (pre ++ ⟨"file", ""⟩ :: post)⟩ =
      (s, [no_file_response]) := by
  unfold request_processor_t.on_create_new_pet
  rw [detect_multipart _ rfl]
  unfold request_processor_t.batch_create_new_pets
  have hcontent : uploaded_file_content
      ⟨.parsed "multipart" "form-data", body,
        some (pre ++ ⟨"file", ""⟩ :: post)⟩ = none := by
    simp only [uploaded_file_content]
    rw [find_file_part_skip pre ⟨"file", ""⟩ post hpre rfl]
    rfl
  rw [hcontent]
  rfl

/-- Witness for C9: a request whose parts are a non-file part followed
by an empty "file" part is answered with the code-4 response and leaves
the fresh database unchanged. -/
theorem batch_empty_file_part_rejected_witness :
    request_processor_t.on_create_new_pet ok_env fresh_db
      ⟨.parsed "multipart" "form-data", "",
        some ([⟨"other", "y"⟩] ++ ⟨"file", ""⟩ :: [])⟩ =
      (fresh_db, [no_file_response]) :=
  batch_empty_file_part_rejected ok_env fresh_db "" [⟨"other", "y"⟩] []
    (by simp)

/-- C10: a batch create whose uploaded envelope decodes to an empty pet
list succeeds: the transaction commits, the returned identity list is
empty, and the database state is unchanged (`create_bunch_of_pets` on
the empty list returns the input state with `ok []`). -/
theorem batch_empty_pet_list_succeeds (env : env_t) (s : db_state_t)
    (req : request_t) (content : String)
    (hct : req.content_type = .parsed "multipart" "form-data")
    (hfile : uploaded_file_content req = some content)
    (hdec : env.decode_bunch content = .ok []) :
    request_processor_t.on_create_new_pet env s req =
      (s, [⟨status_ok, .success (.bunch_ids [])⟩]) ∧
    db_layer_t.create_bunch_of_pets env s [] = (s, .ok []) := by
  constructor
  · unfold request_processor_t.on_create_new_pet
    rw [detect_multipart _ hct]
    unfold request_processor_t.batch_create_new_pets
    rw [hfile]
    simp only [hdec]
    rfl
  · rfl

/-- Witness for C10: a multipart request whose "file" part decodes to
the empty envelope is answered 200 with an empty identity list, the
fresh database staying as it was. -/
theorem batch_empty_pet_list_succeeds_witness :
    request_processor_t.on_create_new_pet decoding_env fresh_db
      file_multipart_req =
      (fresh_db, [⟨status_ok, .success (.bunch_ids [])⟩]) ∧
    db_layer_t.create_bunch_of_pets decoding_env fresh_db [] =
      (fresh_db, .ok []) :=
  batch_empty_pet_list_succeeds decoding_env fresh_db file_multipart_req
    "x" rfl rfl rfl
